import Mathlib

/-!
# Verification of the tile-grid movement core of `bevy_wasm`

Shallow embedding of the grid-coordinate model (`src/components/map_coordinates.rs`)
and of the movement systems `consume_action` and `keyboard_movement`
(`src/main.rs`), together with proofs and refutations of the specified
properties.

Machine integers are modelled as `Int`/`Nat`; where the Rust code can trap
(`unwrap` on a failed conversion, or an `i32` addition that overflows), the
embedded function returns `Option` and `none` stands for the trap.
-/

namespace BevyWasm

/-- Largest value of Rust's `i32` (2^31 - 1), as an integer. -/
def i32Max : Int := 2147483647

/-- `bevy::math::IVec3`: a 3-component vector of `i32`. Components are
modelled as unbounded `Int`; claims that depend on overflow carry explicit
range conditions. -/
structure IVec3 where
  x : Int
  y : Int
  z : Int
deriving DecidableEq, Repr

/-- `IVec3::ZERO`. -/
def IVec3.zero : IVec3 := ⟨0, 0, 0⟩

/-- `IVec3::length_squared`: `x*x + y*y + z*z`. -/
def IVec3.length_squared (v : IVec3) : Int := v.x * v.x + v.y * v.y + v.z * v.z

/-- `WORLD_SIZE` from `map_coordinates.rs`: `UVec2::splat(16)`. Both axes are
equal, so we keep the single scalar. -/
def WORLD_SIZE : Nat := 16

/-- The component `MapCoordinates { origin: IVec3 }`. Rust `Clone` is the
identity on this value type, so cloning is implicit in the pure embedding. -/
structure MapCoordinates where
  origin : IVec3
deriving DecidableEq, Repr

/-- `MapCoordinates::add_direction`: `self.origin += IVec3::new(vec.x, vec.y * -1, vec.z)`.
The vertical component of the displacement is negated before accumulating.
In Rust this mutates in place and returns `&mut Self`; the pure embedding
returns the updated value. -/
def MapCoordinates.add_direction (m : MapCoordinates) (vec : IVec3) : MapCoordinates :=
  { origin := ⟨m.origin.x + vec.x, m.origin.y + vec.y * (-1), m.origin.z + vec.z⟩ }

/-- `MapCoordinates::from_uvec2`: origin is the index re-centered by
`WORLD_SIZE/2` per axis, `z = 0`. `i32::try_from(index.x)` fails (and the
`unwrap` traps, modelled `none`) when the `u32` exceeds `i32::MAX`;
`i32::try_from(WORLD_SIZE.x)` is `16` and never fails. -/
def MapCoordinates.from_uvec2 (index : Nat × Nat) : Option MapCoordinates :=
  if (index.1 : Int) ≤ i32Max ∧ (index.2 : Int) ≤ i32Max then
    some { origin := ⟨(index.1 : Int) - (WORLD_SIZE : Int) / 2,
                      (index.2 : Int) - (WORLD_SIZE : Int) / 2, 0⟩ }
  else none

/-- `MapCoordinates::as_uvec2`: per axis, compute `origin + WORLD_SIZE/2` in
`i32` and convert with `u32::try_from(..).unwrap()`. The `unwrap` traps when
the sum is negative; the `i32` addition itself traps (debug) or wraps to a
negative sum that then fails the conversion (release) when the sum exceeds
`i32::MAX`. Both trap modes are `none`. -/
def MapCoordinates.as_uvec2 (m : MapCoordinates) : Option (Nat × Nat) :=
  let hx : Int := m.origin.x + (WORLD_SIZE : Int) / 2
  let hy : Int := m.origin.y + (WORLD_SIZE : Int) / 2
  if 0 ≤ hx ∧ hx ≤ i32Max ∧ 0 ≤ hy ∧ hy ≤ i32Max then
    some (hx.toNat, hy.toNat)
  else none

/-- The range the spec claims `origin` must stay in for `as_uvec2` to
succeed: `[-extent/2, +extent/2)` on each axis (extent = 16). -/
def inClaimedRange (m : MapCoordinates) : Prop :=
  -(WORLD_SIZE : Int) / 2 ≤ m.origin.x ∧ m.origin.x < (WORLD_SIZE : Int) / 2 ∧
  -(WORLD_SIZE : Int) / 2 ≤ m.origin.y ∧ m.origin.y < (WORLD_SIZE : Int) / 2

instance (m : MapCoordinates) : Decidable (inClaimedRange m) := by
  unfold inClaimedRange; infer_instance

/-! ## Time and timers

Bevy durations are integer nanosecond counts; we model them as `Nat`.
`bevy::time::Timer` in `TimerMode::Once` accumulates elapsed time, clamped at
the duration, and reports finished once the duration is reached. -/

/-- A one-shot `bevy::time::Timer` (`TimerMode::Once`): `elapsed` and
`duration` in nanoseconds. -/
structure Timer where
  elapsed : Nat
  duration : Nat
deriving DecidableEq, Repr

/-- `Timer::tick(delta)`: advance elapsed time, clamped at the duration
(Once mode does not wrap). -/
def Timer.tick (t : Timer) (delta : Nat) : Timer :=
  { t with elapsed := min (t.elapsed + delta) t.duration }

/-- `Timer::is_finished()`: the accumulated time has reached the duration. -/
def Timer.is_finished (t : Timer) : Bool := t.duration ≤ t.elapsed

/-- `Timer::fraction()`: `elapsed / duration` (exact rational in place of
`f32`; the claims proved here do not depend on rounding). -/
def Timer.fraction (t : Timer) : ℚ := (t.elapsed : ℚ) / (t.duration : ℚ)

/-! ## Transforms and the world -/

/-- `bevy::math::Vec3` with exact rational components in place of `f32`. -/
structure Vec3 where
  x : ℚ
  y : ℚ
  z : ℚ
deriving DecidableEq, Repr

/-- `Vec3::lerp(a, b, t)`: component-wise `a + (b - a) * t`. -/
def Vec3.lerp (a b : Vec3) (t : ℚ) : Vec3 :=
  ⟨a.x + (b.x - a.x) * t, a.y + (b.y - a.y) * t, a.z + (b.z - a.z) * t⟩

/-- `bevy::math::Quat` (rotation), rational components in place of `f32`.
`consume_action` never touches it; only its preservation matters here. -/
structure Quat where
  x : ℚ
  y : ℚ
  z : ℚ
  w : ℚ
deriving DecidableEq, Repr

/-- `bevy::transform::Transform`: the systems under study write only
`translation`. -/
structure Transform where
  translation : Vec3
  rotation : Quat
  scale : Vec3
deriving DecidableEq, Repr

/-- The per-entity data `consume_action` queries: `(&mut Transform, &mut
MapCoordinates)` with the `With<Player>` filter. -/
structure EntityState where
  transform : Transform
  coords : MapCoordinates
deriving Repr

/-- The `Action` component from `main.rs`. Entities are opaque ids, modelled
as `Nat`; `time_started` is a `Duration` in nanoseconds. -/
structure Action where
  target_entity : Nat
  direction : IVec3
  time_started : Nat
  timer : Timer
deriving DecidableEq, Repr

/-- `make_movement_action`: duration is `direction.length_squared() as f32 *
0.3` seconds, i.e. `length_squared * 300000000` nanoseconds, timer mode
`Once` (fresh timer, elapsed 0). -/
def make_movement_action (direction : IVec3) (entity : Nat) (time_started : Nat) : Action :=
  { target_entity := entity
    direction := direction
    time_started := time_started
    timer := { elapsed := 0, duration := direction.length_squared.toNat * 300000000 } }

/-! ## The action-processing system `consume_action`

The system iterates over all live `(Entity, &mut Action)` pairs.  Mutable
state threaded through the loop: the entity store (`world`), the list of
action entities scheduled for removal via `Commands` (`removed`), the
per-tick duplicate set (`actions` in the source, `acted` here, an
insertion-ordered set of target entities), and the actions that survive the
pass with their ticked timers (`survivors`). -/

/-- Loop state of one `consume_action` pass. -/
structure TickState where
  world : Nat → Option EntityState
  removed : List Nat
  acted : List Nat
  survivors : List (Nat × Action)

/-- Point update of the entity store (the effect of writing through the
`&mut` references obtained from the query). -/
def updateWorld (w : Nat → Option EntityState) (e : Nat) (es : EntityState) :
    Nat → Option EntityState :=
  fun e2 => if e2 = e then some es else w e2

/-- One iteration of the `consume_action` loop body for action component
`action` living on action-entity `ae` (lines 141–188 of `main.rs`):
resolve the target (else warn and remove); if the timer is finished, commit
`add_direction` and remove; else drop duplicates per the `actions` set; else
tick the timer and lerp the translation between the anchors of the current
and destination tile indices. `anchorOf` is the external
`TilemapChunk::calculate_tile_transform` translation. `none` models a panic
of the `as_uvec2` unwraps. -/
def consume_one (anchorOf : Nat × Nat → Vec3) (delta : Nat)
    (st : TickState) (ae : Nat) (action : Action) : Option TickState :=
  match st.world action.target_entity with
  | none =>
      -- warn!("Invalid Action"); remove::<Action>(); continue
      some { st with removed := st.removed ++ [ae] }
  | some es =>
      if action.timer.is_finished then
        -- commit: map_coordinates.add_direction(direction); remove; continue
        let es2 := { es with coords := es.coords.add_direction action.direction }
        some { st with world := updateWorld st.world action.target_entity es2,
                       removed := st.removed ++ [ae] }
      else if action.target_entity ∈ st.acted then
        -- warn!("Duplicate action"); remove; continue
        some { st with removed := st.removed ++ [ae] }
      else
        let t' := action.timer.tick delta
        match es.coords.as_uvec2, (es.coords.add_direction action.direction).as_uvec2 with
        | some currentIdx, some destIdx =>
            let tr := Vec3.lerp (anchorOf currentIdx) (anchorOf destIdx) t'.fraction
            let es2 := { es with transform := { es.transform with translation := tr } }
            some { st with world := updateWorld st.world action.target_entity es2,
                           acted := st.acted ++ [action.target_entity],
                           survivors := st.survivors ++ [(ae, { action with timer := t' })] }
        | _, _ => none

/-- One pass of the `consume_action` system over the query's action list. -/
def consume_action (anchorOf : Nat × Nat → Vec3) (delta : Nat)
    (actions : List (Nat × Action)) (st : TickState) : Option TickState :=
  actions.foldlM (fun s p => consume_one anchorOf delta s p.1 p.2) st

/-! ## The input system `keyboard_movement`

Only the action-emitting part is modelled; the debug-text branch at the end
of the system reads key state and text components but spawns no `Action`. -/

/-- The key codes the movement filter keeps (`KeyE | KeyS | KeyD | KeyF`);
`other` stands for any further `KeyCode` (reachable in the chord's
`first_key` error arm). -/
inductive Key where
  | keyE
  | keyS
  | keyD
  | keyF
  | other
deriving DecidableEq, Repr

/-- The set `pressed_movement_keys`: which of the four movement keys were
just pressed this tick (a `HashSet`, so each key counts once). -/
structure PressedMovementKeys where
  keyE : Bool
  keyS : Bool
  keyD : Bool
  keyF : Bool
deriving DecidableEq, Repr

/-- `pressed_movement_keys.len()`. -/
def PressedMovementKeys.len (p : PressedMovementKeys) : Nat :=
  (cond p.keyE 1 0) + (cond p.keyS 1 0) + (cond p.keyD 1 0) + (cond p.keyF 1 0)

/-- The direction built by the two-key branch (lines 253–265 of `main.rs`):
start from `IVec3::ZERO` and, per contained key, `E: y += 1`, `D: y += -1`,
`S: x += -1`, `F: x += 1`. -/
def twoKeyDirection (p : PressedMovementKeys) : IVec3 :=
  let d := IVec3.zero
  let d := if p.keyE then { d with y := d.y + 1 } else d
  let d := if p.keyD then { d with y := d.y + (-1) } else d
  let d := if p.keyS then { d with x := d.x + (-1) } else d
  let d := if p.keyF then { d with x := d.x + 1 } else d
  d

/-- The direction built by the chord-expiry branch for the pending key
(lines 280–288 of `main.rs`): `E: y += 1`, `D: y += -1`, `S: x += 1`,
`F: x += -1`; any other key logs an error and leaves the direction zero. -/
def chordKeyDirection (k : Key) : IVec3 :=
  let d := IVec3.zero
  match k with
  | .keyE => { d with y := d.y + 1 }
  | .keyD => { d with y := d.y + (-1) }
  | .keyS => { d with x := d.x + 1 }
  | .keyF => { d with x := d.x + (-1) }
  | .other => d

/-- The `MovementChord` resource: a pending key and the 0.04 s window. -/
structure MovementChord where
  first_key : Option Key
  timer : Timer
deriving DecidableEq, Repr

/-- `MovementChord::default()`: no pending key, a fresh 0.04 s (40 000 000
ns) one-shot timer. -/
def MovementChord.default : MovementChord :=
  { first_key := none, timer := { elapsed := 0, duration := 40000000 } }

/-- The action-emitting behaviour of one `keyboard_movement` tick, given the
resolved player entity.  Returns the spawned actions in spawn order and the
updated chord resource.  `compute_movement_action` spawns only when the
direction is nonzero.  Two-key branch: fires when exactly two movement keys
were just pressed.  Chord branch: fires when a resource exists, a key is
pending and ticking the chord timer by `delta` finishes it (the timer is
ticked only when a key is pending, mirroring the short-circuit `&&`); the
code does not reset `first_key` afterwards. -/
def keyboard_movement (player : Nat) (now delta : Nat)
    (pressed : PressedMovementKeys) (chord : Option MovementChord) :
    List Action × Option MovementChord :=
  let twoKeyActions :=
    if pressed.len = 2 then
      let movement_direction := twoKeyDirection pressed
      if movement_direction ≠ IVec3.zero then
        [make_movement_action movement_direction player now]
      else []
    else []
  match chord with
  | none => (twoKeyActions, none)
  | some mc =>
      match mc.first_key with
      | none => (twoKeyActions, some mc)
      | some key =>
          let t' := mc.timer.tick delta
          if t'.is_finished then
            let movement_direction := chordKeyDirection key
            let chordActions :=
              if movement_direction ≠ IVec3.zero then
                [make_movement_action movement_direction player now]
              else []
            (twoKeyActions ++ chordActions, some { mc with timer := t' })
          else
            (twoKeyActions, some { mc with timer := t' })

/-- The chord is idle: either the resource is absent (it is never inserted
by this program) or no key is pending.  `first_key` is never written
anywhere in the source (the arming logic is commented out), so this holds
in every reachable program state. -/
def chordIdle : Option MovementChord → Prop
  | none => True
  | some mc => mc.first_key = none

instance (c : Option MovementChord) : Decidable (chordIdle c) := by
  cases c <;> simp [chordIdle] <;> infer_instance

/-! ## Claims about the grid coordinate model -/

/-- C2 counterexample: the origin `(8, 0, 0)` lies outside the claimed range
`[-extent/2, +extent/2)` on the x axis (8 ≥ 8), yet `as_uvec2` does not
trap: it returns the index `(16, 8)`.  So `as_uvec2` does not fail exactly
on the claimed range — the upper bound is not enforced. -/
theorem as_uvec2_upper_bound_not_enforced :
    ¬ inClaimedRange ⟨⟨8, 0, 0⟩⟩ ∧
      MapCoordinates.as_uvec2 ⟨⟨8, 0, 0⟩⟩ = some (16, 8) := by
  decide

/-- C2 (amended): `as_uvec2` fails exactly when, on either axis,
`origin + extent/2` is negative (the spec's lower bound `-extent/2`) or
exceeds `i32::MAX` (overflow of the `i32` addition); and on every origin
inside the claimed range `[-extent/2, +extent/2)` it returns the
corresponding index `origin + extent/2` without trapping.  Origins at or
above `+extent/2` (below the overflow bound) convert without trapping, so
only the lower half of the claimed condition is checked. -/
theorem as_uvec2_trap_characterization (m : MapCoordinates) :
    (m.as_uvec2 = none ↔
      (m.origin.x + (WORLD_SIZE : Int) / 2 < 0 ∨ i32Max < m.origin.x + (WORLD_SIZE : Int) / 2 ∨
       m.origin.y + (WORLD_SIZE : Int) / 2 < 0 ∨ i32Max < m.origin.y + (WORLD_SIZE : Int) / 2)) ∧
    (inClaimedRange m →
      m.as_uvec2 = some ((m.origin.x + (WORLD_SIZE : Int) / 2).toNat,
                         (m.origin.y + (WORLD_SIZE : Int) / 2).toNat)) := by
  constructor
  · simp only [MapCoordinates.as_uvec2, WORLD_SIZE, i32Max]
    split_ifs with h
    · simp only [reduceCtorEq, false_iff]
      omega
    · simp only [true_iff]
      omega
  · intro hr
    obtain ⟨h1, h2, h3, h4⟩ := hr
    simp only [MapCoordinates.as_uvec2, WORLD_SIZE, i32Max] at *
    rw [if_pos]
    omega

/-- C2 witness for the amended theorem: at origin `(0,0,0)` (inside the
claimed range) `as_uvec2` returns `(8, 8)`. -/
theorem as_uvec2_trap_characterization_witness :
    MapCoordinates.as_uvec2 ⟨⟨0, 0, 0⟩⟩ = some (8, 8) :=
  (as_uvec2_trap_characterization ⟨⟨0, 0, 0⟩⟩).2 (by decide)

/-- C4: for every index with both components in `[0, extent)`,
`from_uvec2` succeeds and `as_uvec2` maps the result back to the same
index. -/
theorem from_uvec2_as_uvec2_roundtrip (i : Nat × Nat)
    (h1 : i.1 < WORLD_SIZE) (h2 : i.2 < WORLD_SIZE) :
    ∃ m, MapCoordinates.from_uvec2 i = some m ∧ m.as_uvec2 = some i := by
  obtain ⟨a, b⟩ := i
  simp only [WORLD_SIZE] at h1 h2
  refine ⟨⟨⟨(a : Int) - 8, (b : Int) - 8, 0⟩⟩, ?_, ?_⟩
  · simp only [MapCoordinates.from_uvec2, WORLD_SIZE, i32Max]
    rw [if_pos]
    · simp only [Option.some.injEq, MapCoordinates.mk.injEq, IVec3.mk.injEq]
      norm_num
    · constructor <;> omega
  · simp only [MapCoordinates.as_uvec2, WORLD_SIZE, i32Max]
    rw [if_pos]
    · simp only [Option.some.injEq, Prod.mk.injEq]
      omega
    · omega

/-- C4 witness: round-trip at the concrete index `(3, 12)`. -/
theorem from_uvec2_as_uvec2_roundtrip_witness :
    ∃ m, MapCoordinates.from_uvec2 (3, 12) = some m ∧ m.as_uvec2 = some (3, 12) :=
  from_uvec2_as_uvec2_roundtrip (3, 12) (by decide) (by decide)

/-- C5: for every position whose index and whose displaced indices are
representable, applying the displacement `(1,0,0)` increases the x index by
exactly 1 and leaves y unchanged, and applying `(0,1,0)` (screen-up)
decreases the y index by exactly 1 and leaves x unchanged. -/
theorem add_direction_index_law (m : MapCoordinates) (i jx jy : Nat × Nat)
    (h : m.as_uvec2 = some i)
    (hx : (m.add_direction ⟨1, 0, 0⟩).as_uvec2 = some jx)
    (hy : (m.add_direction ⟨0, 1, 0⟩).as_uvec2 = some jy) :
    jx.1 = i.1 + 1 ∧ jx.2 = i.2 ∧ jy.1 = i.1 ∧ jy.2 + 1 = i.2 := by
  obtain ⟨a, b⟩ := i
  obtain ⟨ax, bx⟩ := jx
  obtain ⟨ay, by'⟩ := jy
  simp only [MapCoordinates.as_uvec2, MapCoordinates.add_direction, WORLD_SIZE, i32Max] at h hx hy
  split_ifs at h hx hy with h1 h2 h3
  all_goals simp_all only [Option.some.injEq, Prod.mk.injEq]
  omega

/-- C5 witness: from origin `(0,0,0)` (index `(8,8)`), stepping `(1,0,0)`
gives index `(9,8)` and stepping `(0,1,0)` gives index `(8,7)`. -/
theorem add_direction_index_law_witness :
    (9, 8).1 = (8, 8).1 + 1 ∧ (9, 8).2 = (8, 8).2 ∧
    (8, 7).1 = (8, 8).1 ∧ (8, 7).2 + 1 = (8, 8).2 :=
  add_direction_index_law ⟨⟨0, 0, 0⟩⟩ (8, 8) (9, 8) (8, 7)
    (by decide) (by decide) (by decide)

/-! ## Claims about the input system -/

/-- Helper: with an idle chord (resource absent or no pending key — the only
states this program ever reaches, since nothing arms `first_key`), a
`keyboard_movement` tick emits exactly the two-key branch's actions. -/
theorem keyboard_movement_idle (player now delta : Nat)
    (pressed : PressedMovementKeys) (chord : Option MovementChord)
    (hidle : chordIdle chord) :
    (keyboard_movement player now delta pressed chord).1 =
      if pressed.len = 2 then
        (if twoKeyDirection pressed ≠ IVec3.zero then
          [make_movement_action (twoKeyDirection pressed) player now]
        else [])
      else [] := by
  cases chord with
  | none => rfl
  | some mc =>
      have h : mc.first_key = none := hidle
      simp [keyboard_movement, h]

/-- C1: the chord-expiry branch and the two-key branch disagree on the
left/right keys.  `E` and `D` get the same unit vector in both branches,
but on chord expiry the pending key `S` emits `(1,0,0)` while the two-key
mapping assigns `S` the contribution `(-1,0,0)`, and `F` emits `(-1,0,0)`
against the two-key contribution `(1,0,0)`.  The last conjunct evaluates
the full system at the failing input: no key pressed, pending key `S`,
chord timer expiring — the emitted action's direction is `(1,0,0)`. -/
theorem chord_expiry_swaps_left_right :
    chordKeyDirection .keyE = twoKeyDirection ⟨true, false, false, false⟩ ∧
    chordKeyDirection .keyD = twoKeyDirection ⟨false, false, true, false⟩ ∧
    chordKeyDirection .keyS = ⟨1, 0, 0⟩ ∧
    twoKeyDirection ⟨false, true, false, false⟩ = ⟨-1, 0, 0⟩ ∧
    chordKeyDirection .keyF = ⟨-1, 0, 0⟩ ∧
    twoKeyDirection ⟨false, false, false, true⟩ = ⟨1, 0, 0⟩ ∧
    (keyboard_movement 0 0 40000000 ⟨false, false, false, false⟩
        (some ⟨some .keyS, MovementChord.default.timer⟩)).1 =
      [make_movement_action ⟨1, 0, 0⟩ 0 0] := by
  decide

/-- C3 counterexample: with two movement keys `{E, F}` just pressed and a
`MovementChord` state whose pending key is `E` and whose timer expires this
tick, `keyboard_movement` emits two actions for the player in one tick —
one from the two-key branch and one from the chord-expiry branch. -/
theorem two_emission_paths_can_both_fire :
    (keyboard_movement 0 0 40000000 ⟨true, false, false, true⟩
        (some ⟨some .keyE, MovementChord.default.timer⟩)).1.length = 2 := by
  decide

/-- C3 (amended): each of the two emission paths spawns at most one action,
so a `keyboard_movement` tick emits at most two actions for the player —
and at most one whenever the chord is idle (no pending key), which is the
only chord state this program ever reaches since nothing arms
`first_key`. -/
theorem keyboard_movement_at_most_two_actions (player now delta : Nat)
    (pressed : PressedMovementKeys) (chord : Option MovementChord) :
    (keyboard_movement player now delta pressed chord).1.length ≤ 2 ∧
    (chordIdle chord → (keyboard_movement player now delta pressed chord).1.length ≤ 1) := by
  constructor
  · cases chord with
    | none =>
        simp only [keyboard_movement]
        split_ifs <;> simp
    | some mc =>
        cases hk : mc.first_key with
        | none =>
            simp only [keyboard_movement, hk]
            split_ifs <;> simp
        | some k =>
            simp only [keyboard_movement, hk]
            split_ifs <;> simp
  · intro hidle
    rw [keyboard_movement_idle player now delta pressed chord hidle]
    split_ifs <;> simp

/-- C3 witness (amended theorem, idle-chord conjunct): pressing `{E, S}`
with the default chord resource emits at most one action. -/
theorem keyboard_movement_at_most_two_actions_witness :
    (keyboard_movement 0 0 1 ⟨true, true, false, false⟩
        (some MovementChord.default)).1.length ≤ 1 :=
  (keyboard_movement_at_most_two_actions 0 0 1 ⟨true, true, false, false⟩
    (some MovementChord.default)).2 (by decide)

/-- The two pressed keys are an opposing pair on one axis: `{E, D}`
(forward/back) or `{S, F}` (left/right). -/
def opposingPair (p : PressedMovementKeys) : Prop :=
  p = ⟨true, false, true, false⟩ ∨ p = ⟨false, true, false, true⟩

instance (p : PressedMovementKeys) : Decidable (opposingPair p) := by
  unfold opposingPair; infer_instance

/-- C9: when exactly two movement keys are just pressed (chord idle — the
only reachable chord state): an opposing pair sums to the zero vector and
no action is emitted; any other pair emits exactly one action whose
direction is the (nonzero) sum of the two keys' unit vectors. -/
theorem two_key_resolution (player now delta : Nat)
    (pressed : PressedMovementKeys) (chord : Option MovementChord)
    (hlen : pressed.len = 2) (hidle : chordIdle chord) :
    (opposingPair pressed →
        twoKeyDirection pressed = IVec3.zero ∧
        (keyboard_movement player now delta pressed chord).1 = []) ∧
    (¬ opposingPair pressed →
        twoKeyDirection pressed ≠ IVec3.zero ∧
        (keyboard_movement player now delta pressed chord).1 =
          [make_movement_action (twoKeyDirection pressed) player now]) := by
  rw [keyboard_movement_idle player now delta pressed chord hidle] at *
  obtain ⟨e, s, d, f⟩ := pressed
  cases e <;> cases s <;> cases d <;> cases f <;>
    simp_all [PressedMovementKeys.len, opposingPair, twoKeyDirection, IVec3.zero]

/-- C9 witness: pressing `{E, S}` (up-left, not opposing) with the default
chord resource emits exactly one action with direction `(-1, 1, 0)`. -/
theorem two_key_resolution_witness :
    twoKeyDirection ⟨true, true, false, false⟩ ≠ IVec3.zero ∧
    (keyboard_movement 7 5 1 ⟨true, true, false, false⟩
        (some MovementChord.default)).1 =
      [make_movement_action (twoKeyDirection ⟨true, true, false, false⟩) 7 5] :=
  (two_key_resolution 7 5 1 ⟨true, true, false, false⟩ (some MovementChord.default)
    (by decide) (by decide)).2 (by decide)

/-! ## Claims about the action-processing system -/

/-- C7: an `Action` whose target entity does not resolve is removed by the
pass without touching the entity store (no `GridPosition`, no transform),
and the pass goes on to process the remaining actions from the otherwise
unchanged state. -/
theorem invalid_action_removed (anchorOf : Nat × Nat → Vec3) (delta : Nat)
    (st : TickState) (ae : Nat) (a : Action)
    (h : st.world a.target_entity = none) :
    consume_one anchorOf delta st ae a = some { st with removed := st.removed ++ [ae] } ∧
    ∀ rest, consume_action anchorOf delta ((ae, a) :: rest) st =
      consume_action anchorOf delta rest { st with removed := st.removed ++ [ae] } := by
  have h1 : consume_one anchorOf delta st ae a =
      some { st with removed := st.removed ++ [ae] } := by
    simp [consume_one, h]
  refine ⟨h1, fun rest => ?_⟩
  simp [consume_action, List.foldlM, h1]

/-- C7 witness: one action targeting the missing entity `5` in an empty
world is removed and the pass continues on the remaining (empty) list. -/
theorem invalid_action_removed_witness :
    consume_one (fun _ => ⟨0, 0, 0⟩) 16
        ⟨fun _ => none, [], [], []⟩ 3 (make_movement_action ⟨1, 0, 0⟩ 5 0) =
      some { (⟨fun _ => none, [], [], []⟩ : TickState) with removed := ([] : List Nat) ++ [3] } ∧
    consume_action (fun _ => ⟨0, 0, 0⟩) 16 [(3, make_movement_action ⟨1, 0, 0⟩ 5 0)]
        ⟨fun _ => none, [], [], []⟩ =
      consume_action (fun _ => ⟨0, 0, 0⟩) 16 []
        { (⟨fun _ => none, [], [], []⟩ : TickState) with removed := ([] : List Nat) ++ [3] } :=
  ⟨(invalid_action_removed (fun _ => ⟨0, 0, 0⟩) 16 ⟨fun _ => none, [], [], []⟩ 3
      (make_movement_action ⟨1, 0, 0⟩ 5 0) rfl).1,
   (invalid_action_removed (fun _ => ⟨0, 0, 0⟩) 16 ⟨fun _ => none, [], [], []⟩ 3
      (make_movement_action ⟨1, 0, 0⟩ 5 0) rfl).2 []⟩

/-- C8: for a resolvable, non-duplicate action with representable indices:
while the timer is not finished the step leaves the target's
`MapCoordinates` unchanged (the destination is computed on a clone), sets
only the transform's translation — to the lerp between the anchors of the
current and destination indices — leaving rotation and scale untouched, and
touches no other entity; when the timer is finished the step commits
`add_direction` to the coordinates exactly once and leaves the transform
untouched. -/
theorem running_action_frame_effects (anchorOf : Nat × Nat → Vec3) (delta : Nat)
    (st : TickState) (ae : Nat) (a : Action) (es : EntityState) (idx1 idx2 : Nat × Nat)
    (hw : st.world a.target_entity = some es)
    (hdup : a.target_entity ∉ st.acted)
    (hc : es.coords.as_uvec2 = some idx1)
    (hd : (es.coords.add_direction a.direction).as_uvec2 = some idx2) :
    (a.timer.is_finished = false →
      ∃ st2 es2, consume_one anchorOf delta st ae a = some st2 ∧
        st2.world a.target_entity = some es2 ∧
        es2.coords = es.coords ∧
        es2.transform.rotation = es.transform.rotation ∧
        es2.transform.scale = es.transform.scale ∧
        es2.transform.translation =
          Vec3.lerp (anchorOf idx1) (anchorOf idx2) ((a.timer.tick delta).fraction) ∧
        (∀ e2, e2 ≠ a.target_entity → st2.world e2 = st.world e2)) ∧
    (a.timer.is_finished = true →
      ∃ st2 es2, consume_one anchorOf delta st ae a = some st2 ∧
        st2.world a.target_entity = some es2 ∧
        es2.coords = es.coords.add_direction a.direction ∧
        es2.transform = es.transform ∧
        (∀ e2, e2 ≠ a.target_entity → st2.world e2 = st.world e2)) := by
  constructor
  · intro hf
    refine ⟨{ st with
        world := updateWorld st.world a.target_entity ({ es with transform := { es.transform with translation := Vec3.lerp (anchorOf idx1) (anchorOf idx2) ((a.timer.tick delta).fraction) } }),
        acted := st.acted ++ [a.target_entity],
        survivors := st.survivors ++ [(ae, { a with timer := a.timer.tick delta })] },
      { es with transform := { es.transform with translation := Vec3.lerp (anchorOf idx1) (anchorOf idx2) ((a.timer.tick delta).fraction) } },
      ?_, ?_, rfl, rfl, rfl, rfl, ?_⟩
    · simp [consume_one, hw, hf, hdup, hc, hd]
    · simp [updateWorld]
    · intro e2 hne
      simp [updateWorld, hne]
  · intro hf
    refine ⟨{ st with
        world := updateWorld st.world a.target_entity ({ es with coords := es.coords.add_direction a.direction }),
        removed := st.removed ++ [ae] },
      { es with coords := es.coords.add_direction a.direction },
      ?_, ?_, rfl, rfl, ?_⟩
    · simp [consume_one, hw, hf]
    · simp [updateWorld]
    · intro e2 hne
      simp [updateWorld, hne]

/-- C8 witness: a fresh single-step action on entity `5` at origin `(0,0,0)`
(timer 0.3 s, not finished at elapsed 0). -/
theorem running_action_frame_effects_witness :
    ∃ st2 es2,
      consume_one (fun _ => ⟨0, 0, 0⟩) 16
          ⟨fun n => if n = 5 then some ⟨⟨⟨0, 0, 0⟩, ⟨0, 0, 0, 1⟩, ⟨1, 1, 1⟩⟩, ⟨⟨0, 0, 0⟩⟩⟩ else none,
           [], [], []⟩ 3 (make_movement_action ⟨1, 0, 0⟩ 5 0) = some st2 ∧
      st2.world (make_movement_action ⟨1, 0, 0⟩ 5 0).target_entity = some es2 ∧
      es2.coords = (⟨⟨⟨0, 0, 0⟩, ⟨0, 0, 0, 1⟩, ⟨1, 1, 1⟩⟩, ⟨⟨0, 0, 0⟩⟩⟩ : EntityState).coords ∧
      es2.transform.rotation =
        (⟨⟨⟨0, 0, 0⟩, ⟨0, 0, 0, 1⟩, ⟨1, 1, 1⟩⟩, ⟨⟨0, 0, 0⟩⟩⟩ : EntityState).transform.rotation ∧
      es2.transform.scale =
        (⟨⟨⟨0, 0, 0⟩, ⟨0, 0, 0, 1⟩, ⟨1, 1, 1⟩⟩, ⟨⟨0, 0, 0⟩⟩⟩ : EntityState).transform.scale ∧
      es2.transform.translation =
        Vec3.lerp ((fun _ => (⟨0, 0, 0⟩ : Vec3)) (8, 8)) ((fun _ => (⟨0, 0, 0⟩ : Vec3)) (9, 8))
          (((make_movement_action ⟨1, 0, 0⟩ 5 0).timer.tick 16).fraction) ∧
      (∀ e2, e2 ≠ (make_movement_action ⟨1, 0, 0⟩ 5 0).target_entity →
        st2.world e2 =
          (⟨fun n => if n = 5 then some ⟨⟨⟨0, 0, 0⟩, ⟨0, 0, 0, 1⟩, ⟨1, 1, 1⟩⟩, ⟨⟨0, 0, 0⟩⟩⟩ else none,
            [], [], []⟩ : TickState).world e2) :=
  (running_action_frame_effects (fun _ => ⟨0, 0, 0⟩) 16
      ⟨fun n => if n = 5 then some ⟨⟨⟨0, 0, 0⟩, ⟨0, 0, 0, 1⟩, ⟨1, 1, 1⟩⟩, ⟨⟨0, 0, 0⟩⟩⟩ else none,
       [], [], []⟩ 3 (make_movement_action ⟨1, 0, 0⟩ 5 0)
      ⟨⟨⟨0, 0, 0⟩, ⟨0, 0, 0, 1⟩, ⟨1, 1, 1⟩⟩, ⟨⟨0, 0, 0⟩⟩⟩ (8, 8) (9, 8)
      rfl (by decide) (by decide) (by decide)).1 (by decide)

/-- C6: two live actions targeting the same resolvable entity, neither
timer finished: after one pass exactly one action remains active — the
first one processed, with its timer ticked — the second is removed as a
duplicate, and the entity's `MapCoordinates` are unchanged. -/
theorem duplicate_action_discarded (anchorOf : Nat × Nat → Vec3) (delta : Nat)
    (w : Nat → Option EntityState) (e id1 id2 : Nat) (a1 a2 : Action)
    (es : EntityState) (idx1 idx2 : Nat × Nat)
    (he1 : a1.target_entity = e) (he2 : a2.target_entity = e)
    (hw : w e = some es)
    (hf1 : a1.timer.is_finished = false) (hf2 : a2.timer.is_finished = false)
    (hc : es.coords.as_uvec2 = some idx1)
    (hd : (es.coords.add_direction a1.direction).as_uvec2 = some idx2) :
    ∃ st2, consume_action anchorOf delta [(id1, a1), (id2, a2)] ⟨w, [], [], []⟩ = some st2 ∧
      st2.survivors = [(id1, { a1 with timer := a1.timer.tick delta })] ∧
      st2.removed = [id2] ∧
      (st2.world e).map EntityState.coords = some es.coords := by
  subst he1
  have h1 : consume_one anchorOf delta ⟨w, [], [], []⟩ id1 a1 = some ⟨updateWorld w a1.target_entity ({ es with transform := { es.transform with translation := Vec3.lerp (anchorOf idx1) (anchorOf idx2) ((a1.timer.tick delta).fraction) } }), [], [a1.target_entity], [(id1, { a1 with timer := a1.timer.tick delta })]⟩ := by
    simp [consume_one, hw, hf1, hc, hd]
  have hw2 : updateWorld w a1.target_entity ({ es with transform := { es.transform with translation := Vec3.lerp (anchorOf idx1) (anchorOf idx2) ((a1.timer.tick delta).fraction) } }) a2.target_entity = some ({ es with transform := { es.transform with translation := Vec3.lerp (anchorOf idx1) (anchorOf idx2) ((a1.timer.tick delta).fraction) } }) := by
    simp [updateWorld, he2]
  have h2 : consume_one anchorOf delta ⟨updateWorld w a1.target_entity ({ es with transform := { es.transform with translation := Vec3.lerp (anchorOf idx1) (anchorOf idx2) ((a1.timer.tick delta).fraction) } }), [], [a1.target_entity], [(id1, { a1 with timer := a1.timer.tick delta })]⟩ id2 a2 = some ⟨updateWorld w a1.target_entity ({ es with transform := { es.transform with translation := Vec3.lerp (anchorOf idx1) (anchorOf idx2) ((a1.timer.tick delta).fraction) } }), [id2], [a1.target_entity], [(id1, { a1 with timer := a1.timer.tick delta })]⟩ := by
    simp only [consume_one, hw2, hf2, he2]
    split
    · rfl
    · simp
  refine ⟨⟨updateWorld w a1.target_entity ({ es with transform := { es.transform with translation := Vec3.lerp (anchorOf idx1) (anchorOf idx2) ((a1.timer.tick delta).fraction) } }), [id2], [a1.target_entity], [(id1, { a1 with timer := a1.timer.tick delta })]⟩, ?_, rfl, rfl, ?_⟩
  · simp [consume_action, List.foldlM, h1, h2]
  · simp [updateWorld]

/-- C6 witness: two fresh, unfinished single-step actions on entity `5` at
origin `(0,0,0)`; the pass keeps the first and drops the second. -/
theorem duplicate_action_discarded_witness :
    ∃ st2,
      consume_action (fun _ => ⟨0, 0, 0⟩) 16
          [(1, make_movement_action ⟨1, 0, 0⟩ 5 0), (2, make_movement_action ⟨0, 1, 0⟩ 5 7)]
          ⟨fun n => if n = 5 then some ⟨⟨⟨0, 0, 0⟩, ⟨0, 0, 0, 1⟩, ⟨1, 1, 1⟩⟩, ⟨⟨0, 0, 0⟩⟩⟩ else none,
           [], [], []⟩ = some st2 ∧
      st2.survivors = [(1, { make_movement_action ⟨1, 0, 0⟩ 5 0 with timer := (make_movement_action ⟨1, 0, 0⟩ 5 0).timer.tick 16 })] ∧
      st2.removed = [2] ∧
      (st2.world 5).map EntityState.coords =
        some (⟨⟨⟨0, 0, 0⟩, ⟨0, 0, 0, 1⟩, ⟨1, 1, 1⟩⟩, ⟨⟨0, 0, 0⟩⟩⟩ : EntityState).coords :=
  duplicate_action_discarded (fun _ => ⟨0, 0, 0⟩) 16
    (fun n => if n = 5 then some ⟨⟨⟨0, 0, 0⟩, ⟨0, 0, 0, 1⟩, ⟨1, 1, 1⟩⟩, ⟨⟨0, 0, 0⟩⟩⟩ else none)
    5 1 2 (make_movement_action ⟨1, 0, 0⟩ 5 0) (make_movement_action ⟨0, 1, 0⟩ 5 7)
    ⟨⟨⟨0, 0, 0⟩, ⟨0, 0, 0, 1⟩, ⟨1, 1, 1⟩⟩, ⟨⟨0, 0, 0⟩⟩⟩ (8, 8) (9, 8)
    rfl rfl rfl (by decide) (by decide) (by decide) (by decide)

/-- C10: when the first action processed for an entity has a finished timer
the commit path removes it without inserting the entity into the per-tick
duplicate set, so a second unfinished action on the same entity processed
later in the same pass is not discarded: its timer is ticked and it stays
active. -/
theorem finished_commit_keeps_second_action (anchorOf : Nat × Nat → Vec3) (delta : Nat)
    (w : Nat → Option EntityState) (e id1 id2 : Nat) (a1 a2 : Action)
    (es : EntityState) (idx1 idx2 : Nat × Nat)
    (he1 : a1.target_entity = e) (he2 : a2.target_entity = e)
    (hw : w e = some es)
    (hf1 : a1.timer.is_finished = true) (hf2 : a2.timer.is_finished = false)
    (hc : (es.coords.add_direction a1.direction).as_uvec2 = some idx1)
    (hd : ((es.coords.add_direction a1.direction).add_direction a2.direction).as_uvec2 = some idx2) :
    ∃ st2, consume_action anchorOf delta [(id1, a1), (id2, a2)] ⟨w, [], [], []⟩ = some st2 ∧
      st2.removed = [id1] ∧
      st2.survivors = [(id2, { a2 with timer := a2.timer.tick delta })] ∧
      st2.acted = [e] := by
  subst he1
  have h1 : consume_one anchorOf delta ⟨w, [], [], []⟩ id1 a1 = some ⟨updateWorld w a1.target_entity ({ es with coords := es.coords.add_direction a1.direction }), [id1], [], []⟩ := by
    simp [consume_one, hw, hf1]
  have hw2 : updateWorld w a1.target_entity ({ es with coords := es.coords.add_direction a1.direction }) a2.target_entity = some ({ es with coords := es.coords.add_direction a1.direction }) := by
    simp [updateWorld, he2]
  have h2 : consume_one anchorOf delta ⟨updateWorld w a1.target_entity ({ es with coords := es.coords.add_direction a1.direction }), [id1], [], []⟩ id2 a2 = some ⟨updateWorld (updateWorld w a1.target_entity ({ es with coords := es.coords.add_direction a1.direction })) a2.target_entity ({ { es with coords := es.coords.add_direction a1.direction } with transform := { es.transform with translation := Vec3.lerp (anchorOf idx1) (anchorOf idx2) ((a2.timer.tick delta).fraction) } }), [id1], [a2.target_entity], [(id2, { a2 with timer := a2.timer.tick delta })]⟩ := by
    simp [consume_one, hw2, hf2, hc, hd]
  refine ⟨⟨updateWorld (updateWorld w a1.target_entity ({ es with coords := es.coords.add_direction a1.direction })) a2.target_entity ({ { es with coords := es.coords.add_direction a1.direction } with transform := { es.transform with translation := Vec3.lerp (anchorOf idx1) (anchorOf idx2) ((a2.timer.tick delta).fraction) } }), [id1], [a2.target_entity], [(id2, { a2 with timer := a2.timer.tick delta })]⟩, ?_, rfl, rfl, ?_⟩
  · simp [consume_action, List.foldlM, h1, h2]
  · simp [he2]

/-- C10 witness: a finished action then a fresh unfinished one on entity
`5`; after the pass the second survives with its timer ticked. -/
theorem finished_commit_keeps_second_action_witness :
    ∃ st2,
      consume_action (fun _ => ⟨0, 0, 0⟩) 16
          [(1, ⟨5, ⟨1, 0, 0⟩, 0, ⟨300000000, 300000000⟩⟩), (2, make_movement_action ⟨0, 1, 0⟩ 5 7)]
          ⟨fun n => if n = 5 then some ⟨⟨⟨0, 0, 0⟩, ⟨0, 0, 0, 1⟩, ⟨1, 1, 1⟩⟩, ⟨⟨0, 0, 0⟩⟩⟩ else none,
           [], [], []⟩ = some st2 ∧
      st2.removed = [1] ∧
      st2.survivors = [(2, { make_movement_action ⟨0, 1, 0⟩ 5 7 with timer := (make_movement_action ⟨0, 1, 0⟩ 5 7).timer.tick 16 })] ∧
      st2.acted = [5] :=
  finished_commit_keeps_second_action (fun _ => ⟨0, 0, 0⟩) 16
    (fun n => if n = 5 then some ⟨⟨⟨0, 0, 0⟩, ⟨0, 0, 0, 1⟩, ⟨1, 1, 1⟩⟩, ⟨⟨0, 0, 0⟩⟩⟩ else none)
    5 1 2 ⟨5, ⟨1, 0, 0⟩, 0, ⟨300000000, 300000000⟩⟩ (make_movement_action ⟨0, 1, 0⟩ 5 7)
    ⟨⟨⟨0, 0, 0⟩, ⟨0, 0, 0, 1⟩, ⟨1, 1, 1⟩⟩, ⟨⟨0, 0, 0⟩⟩⟩ (9, 8) (9, 7)
    rfl rfl rfl (by decide) (by decide) (by decide) (by decide)

end BevyWasm
